import Mathlib

/-!
Verification of the CA-13 analysis scripts.

Each Python script relevant to the claims is shallowly embedded below:
pure computations become Lean functions over `ℚ` (the scripts' float
arithmetic is modelled exactly by rationals), fallible operations
(file reads, HTTP requests, user input) become `Except String`-valued
parameters of the embedded functions, and each operation returns a
record of its Python return value, the final object attributes, the
messages it printed, and the side effects it performed.
-/

namespace DistrictProcessor

/-- A geo table as produced by gpd.read_file: a list of column names and
rows, each row an association list from column name to (string) value. -/
structure GeoTable where
  cols : List String
  rows : List (List (String × String))
deriving Repr, DecidableEq

/-- Value of column c in row r; missing columns read as "" (never consulted
for columns that are absent from the table's column list). -/
def lookupVal (r : List (String × String)) (c : String) : String :=
  match r.find? (fun p => p.1 = c) with
  | some p => p.2
  | none => ""

/-- The candidate district-column names tried by process_district_data. -/
def district_cols : List String :=
  ["DISTRICT", "District", "CD", "CD_NUM", "CONG_DIST"]

/-- The first candidate district column present in the table, as found by
the for-loop in process_district_data. -/
def find_district_col (t : GeoTable) : Option String :=
  district_cols.find? (fun c => t.cols.contains c)

/-- Outcomes of the external world that process_district_data interacts
with: whether the shapefile exists, the result of gpd.read_file, the
result of int(input(...)), and the result of to_file. An `Except.error`
models a raised exception carrying its message. -/
structure DPWorld where
  shapefileExists : Bool
  readResult : Except String GeoTable
  inputResult : Except String Nat
  writeResult : Except String Unit

/-- Result of a run of process_district_data: its Python return value,
the final self.district_data and self.ca13_data attributes, whether the
CA13_boundary.geojson output was written, whether the run blocked on an
input() prompt, and the messages printed. -/
structure DPResult where
  retval : Bool
  district_data : Option GeoTable
  ca13_data : Option GeoTable
  wroteOutput : Bool
  promptedInput : Bool
  messages : List String
deriving Repr

/-- The rows of t whose district-column value strips to "13"
(the ca13_data extraction). -/
def extract13 (t : GeoTable) (col : String) : GeoTable :=
  { cols := t.cols
    rows := t.rows.filter (fun r => (lookupVal r col).trim = "13") }

/-- Continuation of process_district_data once a district column has been
chosen: extract district 13, fail if empty, else write the output file. -/
def process_with_col (w : DPWorld) (t : GeoTable) (col : String)
    (prompted : Bool) : DPResult :=
  let ca13 := extract13 t col
  if ca13.rows.length = 0 then
    { retval := false, district_data := some t, ca13_data := some ca13
      wroteOutput := false, promptedInput := prompted
      messages := ["Error: Could not find District 13"] }
  else
    match w.writeResult with
    | Except.error e =>
      { retval := false, district_data := some t, ca13_data := some ca13
        wroteOutput := false, promptedInput := prompted
        messages := ["Error processing district data: " ++ e] }
    | Except.ok _ =>
      { retval := true, district_data := some t, ca13_data := some ca13
        wroteOutput := true, promptedInput := prompted
        messages := ["Saved CA-13 boundary to: data/processed/CA13_boundary.geojson"] }

/-- Embedding of CA13Processor.process_district_data. The broad
try/except turns any raised exception into the printed message
"Error processing district data: e" and the return value False. -/
def process_district_data (w : DPWorld) : DPResult :=
  if w.shapefileExists = false then
    { retval := false, district_data := none, ca13_data := none
      wroteOutput := false, promptedInput := false
      messages := ["Error: Shapefile not found at data/ca_cong_adopted_2021/CD_Final 2021-12-20.shp"] }
  else
    match w.readResult with
    | Except.error e =>
      { retval := false, district_data := none, ca13_data := none
        wroteOutput := false, promptedInput := false
        messages := ["Loading district data...",
                     "Error processing district data: " ++ e] }
    | Except.ok t =>
      match find_district_col t with
      | some col => process_with_col w t col false
      | none =>
        match w.inputResult with
        | Except.error e =>
          { retval := false, district_data := some t, ca13_data := none
            wroteOutput := false, promptedInput := true
            messages := ["Could not automatically find district column.",
                         "Error processing district data: " ++ e] }
        | Except.ok idx =>
          if h : idx < t.cols.length then
            process_with_col w t (t.cols.get ⟨idx, h⟩) true
          else
            { retval := false, district_data := some t, ca13_data := none
              wroteOutput := false, promptedInput := true
              messages := ["Could not automatically find district column.",
                           "Error processing district data: IndexError"] }

end DistrictProcessor

namespace InitialSetup

/-- A CSV table as produced by pd.read_csv (contents opaque to the
claims about CA13Analyzer.load_census_data). -/
structure CsvTable where
  rows : List (List String)
deriving Repr, DecidableEq

/-- Result of CA13Analyzer.load_census_data: Python return value, the
final self.census_data attribute (None before the call), and the printed
messages. -/
structure LoadCensusResult where
  retval : Bool
  census_data : Option CsvTable
  messages : List String
deriving Repr

/-- Embedding of CA13Analyzer.load_census_data: pd.read_csv either
returns a table (assigned to self.census_data, return True) or raises
(caught, message printed, return False, attribute left at None). -/
def load_census_data (readResult : Except String CsvTable) : LoadCensusResult :=
  match readResult with
  | Except.ok t =>
    { retval := true, census_data := some t
      messages := ["Successfully loaded census data"] }
  | Except.error e =>
    { retval := false, census_data := none
      messages := ["Error loading census data: " ++ e] }

end InitialSetup

namespace FecFetcher

/-- A candidate record from the FEC API (fields opaque to the claims
except the candidate_id used by fetch_candidate_financials). -/
structure Candidate where
  name : String
  party : String
  candidate_id : String
deriving Repr, DecidableEq

/-- The parsed JSON body of an FEC response; data['results'] is absent
when the key is missing (its access then raises a KeyError). -/
structure FECJson where
  results : Option (List Candidate)
deriving Repr

/-- An HTTP response: status code, body text, and the outcome of
response.json() (which may raise on a malformed body). -/
structure FECResponse where
  status : Nat
  text : String
  jsonResult : Except String FECJson

/-- External-world outcomes for one fetch call: the outcome of the single
requests.get (error = the request raised), and of the raw-file save. -/
structure FetchWorld where
  requestResult : Except String FECResponse
  saveResult : Except String Unit

/-- One HTTP GET request as issued by requests.get: url and query
parameters. -/
structure HttpRequest where
  url : String
  params : List (String × String)
deriving Repr, DecidableEq

/-- Result of a fetch call: Python return value, messages printed, and
the trace of HTTP GET requests issued during the call. -/
structure FetchResult where
  retval : Option (List Candidate)
  messages : List String
  requests_issued : List HttpRequest

/-- The single GET request issued by fetch_ca13_candidates. -/
def candidates_request (api_key : String) : HttpRequest :=
  { url := "https://api.open.fec.gov/v1/candidates/search"
    params := [("api_key", api_key), ("state", "CA"), ("district", "13"),
               ("election_year", "2024"), ("per_page", "100")] }

/-- Embedding of FECDataFetcher.fetch_ca13_candidates: issue one GET; on
status 200, parse the JSON, save the raw file, and return
data['results']; on a non-200 status print the code and return None; any
raised exception is caught, printed as "Error: e", and yields None. -/
def fetch_ca13_candidates (api_key : String) (w : FetchWorld) : FetchResult :=
  let req := candidates_request api_key
  match w.requestResult with
  | Except.error e =>
    { retval := none, messages := ["Error: " ++ e], requests_issued := [req] }
  | Except.ok resp =>
    if resp.status = 200 then
      match resp.jsonResult with
      | Except.error e =>
        { retval := none, messages := ["Error: " ++ e], requests_issued := [req] }
      | Except.ok data =>
        match w.saveResult with
        | Except.error e =>
          { retval := none, messages := ["Error: " ++ e], requests_issued := [req] }
        | Except.ok _ =>
          match data.results with
          | none =>
            { retval := none, messages := ["Error: KeyError: results"]
              requests_issued := [req] }
          | some results =>
            { retval := some results, messages := ["Found Candidates:"]
              requests_issued := [req] }
    else
      { retval := none
        messages := ["Error fetching candidates: " ++ toString resp.status, resp.text]
        requests_issued := [req] }

/-- The parsed JSON body of a candidate-totals response. -/
structure TotalsJson where
  results : Option (List (List (String × ℚ)))
deriving Repr

/-- An HTTP response for the totals endpoint. -/
structure TotalsResponse where
  status : Nat
  jsonResult : Except String TotalsJson

/-- Result of fetch_candidate_financials. -/
structure FinancialsResult where
  retval : Option (List (List (String × ℚ)))
  messages : List String
  requests_issued : List HttpRequest

/-- The single GET request issued by fetch_candidate_financials. -/
def financials_request (api_key candidate_id : String) : HttpRequest :=
  { url := "https://api.open.fec.gov/v1/candidate/" ++ candidate_id ++ "/totals"
    params := [("api_key", api_key), ("candidate_id", candidate_id),
               ("per_page", "100")] }

/-- Embedding of FECDataFetcher.fetch_candidate_financials: one GET; on
status 200 return response.json()['results']; on non-200 print and
return None; any exception is caught, printed, and yields None. -/
def fetch_candidate_financials (api_key candidate_id : String)
    (requestResult : Except String TotalsResponse) : FinancialsResult :=
  let req := financials_request api_key candidate_id
  match requestResult with
  | Except.error e =>
    { retval := none, messages := ["Error: " ++ e], requests_issued := [req] }
  | Except.ok resp =>
    if resp.status = 200 then
      match resp.jsonResult with
      | Except.error e =>
        { retval := none, messages := ["Error: " ++ e], requests_issued := [req] }
      | Except.ok data =>
        match data.results with
        | none =>
          { retval := none, messages := ["Error: KeyError: results"]
            requests_issued := [req] }
        | some results =>
          { retval := some results, messages := [], requests_issued := [req] }
    else
      { retval := none
        messages := ["Error fetching financials for candidate " ++ candidate_id
                       ++ ": " ++ toString resp.status]
        requests_issued := [req] }

/-- The API key literal embedded in the source at the script entry
point (the __main__ block of fec-data-fetcher.py). -/
def API_KEY : String := "dO8yZTF2MG41iRjWCXmXlgUU2WZYGRtHJwjbqm6R"

/-- The api_key attribute of the FECDataFetcher constructed at the entry
point: FECDataFetcher(API_KEY) stores its argument unchanged. -/
def entry_point_fetcher_key : String := API_KEY

end FecFetcher

namespace DataCollection

/-- A row of the MIT Election Lab house-precinct CSV, restricted to the
columns get_election_data actually reads. Vote counts are rationals
(pandas reads them as numerics; float arithmetic on them is exact here
because the claims are about the defining equations). -/
structure ElectionRow where
  state : String
  district : Int
  precinct : String
  democratic_votes : ℚ
  republican_votes : ℚ
  total_votes : ℚ
deriving Repr, DecidableEq

/-- A processed CA-13 row: the source row plus the two vote-share
columns assigned by get_election_data. -/
structure ProcessedRow extends ElectionRow where
  democratic_vote_share : ℚ
  republican_vote_share : ℚ
deriving Repr, DecidableEq

/-- The CA-13 filter of get_election_data:
state == 'CALIFORNIA' and district == 13. -/
def isCA13 (r : ElectionRow) : Bool :=
  r.state = "CALIFORNIA" && r.district = 13

/-- The column assignments of get_election_data on the filtered frame:
democratic_vote_share = democratic_votes / total_votes * 100 and
republican_vote_share = republican_votes / total_votes * 100. -/
def addShares (r : ElectionRow) : ProcessedRow :=
  { r with
    democratic_vote_share := r.democratic_votes / r.total_votes * 100
    republican_vote_share := r.republican_votes / r.total_votes * 100 }

/-- The successful path of get_election_data applied to the downloaded
table: filter to CA-13 and assign the two share columns. -/
def process_election_rows (rows : List ElectionRow) : List ProcessedRow :=
  (rows.filter isCA13).map addShares

/-- Embedding of get_election_data: the download either raises (caught,
message printed, returns None) or yields the table, which is filtered
and given the share columns. -/
def get_election_data (download : Except String (List ElectionRow)) :
    Option (List ProcessedRow) :=
  match download with
  | Except.error _ => none
  | Except.ok rows => some (process_election_rows rows)

end DataCollection

namespace DemographicAnalyzer

/-- The single-row attribute frame of the CA-13 boundary GeoJSON:
column name to the value at .iloc[0]. -/
structure Frame where
  cols : List (String × ℚ)
deriving Repr, DecidableEq

/-- Whether the frame has a column named c. -/
def hasCol (f : Frame) (c : String) : Bool :=
  f.cols.any (fun p => p.1 = c)

/-- Embedding of self.district_data[c].iloc[0]: the value when column c
exists, a raised KeyError naming the column otherwise. -/
def getCol (f : Frame) (c : String) : Except String ℚ :=
  match f.cols.find? (fun p => p.1 = c) with
  | some p => Except.ok p.2
  | none => Except.error ("KeyError: " ++ c)

/-- Result of CA13DemographicAnalyzer.load_data: Python return value,
the final self.district_data attribute (None before the call), and the
printed messages. -/
structure LoadResult where
  retval : Bool
  district_data : Option Frame
  messages : List String
deriving Repr

/-- Embedding of CA13DemographicAnalyzer.load_data: gpd.read_file either
yields the frame (assigned, success message, return True) or raises
(caught, message printed, return False, attribute left at None). -/
def load_data (readResult : Except String Frame) : LoadResult :=
  match readResult with
  | Except.ok f =>
    { retval := true, district_data := some f
      messages := ["Successfully loaded CA-13 data"] }
  | Except.error e =>
    { retval := false, district_data := none
      messages := ["Error loading data: " ++ e] }

/-- The percentage computation of analyze_demographics: each group's
CVAP count divided by the total CVAP, times 100, for the fixed four
categories. -/
def demographic_pcts (hsp blk asn wht cvap : ℚ) : List (String × ℚ) :=
  [("Hispanic", hsp / cvap * 100),
   ("Black", blk / cvap * 100),
   ("Asian", asn / cvap * 100),
   ("White", wht / cvap * 100)]

/-- The columns analyze_demographics reads to build its demographics
dict, in evaluation order of the dict literal. -/
def requiredCols : List String :=
  ["POPULATION", "CVAP_19", "HSP_CVAP_1", "DOJ_NH_BLK", "DOJ_NH_ASN", "NH_WHT_CVA"]

/-- Result of a run of analyze_demographics: the uncaught exception (if
one was raised; the method has no try/except, so it propagates), the
percentage dict if its computation was reached, whether the
save_analysis report was written in full, and the messages the method
itself printed. -/
structure AnalyzeResult where
  exn : Option String
  pcts : Option (List (String × ℚ))
  savedAnalysis : Bool
  messages : List String
deriving Repr

/-- Embedding of CA13DemographicAnalyzer.analyze_demographics. Column
accesses occur in source order: the six demographics-dict columns, then
(inside save_analysis, after the plot) IDEAL_VALU, DEVIATION and
F_DEVIATIO. A missing column raises a KeyError that no handler in the
method catches. -/
def analyze_demographics (district_data : Option Frame) : AnalyzeResult :=
  match district_data with
  | none => { exn := none, pcts := none, savedAnalysis := false
              messages := ["No data loaded"] }
  | some f =>
    match getCol f "POPULATION" with
    | Except.error e => { exn := some e, pcts := none, savedAnalysis := false, messages := [] }
    | Except.ok _pop =>
    match getCol f "CVAP_19" with
    | Except.error e => { exn := some e, pcts := none, savedAnalysis := false, messages := [] }
    | Except.ok cvap =>
    match getCol f "HSP_CVAP_1" with
    | Except.error e => { exn := some e, pcts := none, savedAnalysis := false, messages := [] }
    | Except.ok hsp =>
    match getCol f "DOJ_NH_BLK" with
    | Except.error e => { exn := some e, pcts := none, savedAnalysis := false, messages := [] }
    | Except.ok blk =>
    match getCol f "DOJ_NH_ASN" with
    | Except.error e => { exn := some e, pcts := none, savedAnalysis := false, messages := [] }
    | Except.ok asn =>
    match getCol f "NH_WHT_CVA" with
    | Except.error e => { exn := some e, pcts := none, savedAnalysis := false, messages := [] }
    | Except.ok wht =>
    let pcts := demographic_pcts hsp blk asn wht cvap
    match getCol f "IDEAL_VALU", getCol f "DEVIATION", getCol f "F_DEVIATIO" with
    | Except.ok _, Except.ok _, Except.ok _ =>
      { exn := none, pcts := some pcts, savedAnalysis := true
        messages := ["CA-13 Demographic Analysis"] }
    | Except.error e, _, _ =>
      { exn := some e, pcts := some pcts, savedAnalysis := false
        messages := ["CA-13 Demographic Analysis"] }
    | _, Except.error e, _ =>
      { exn := some e, pcts := some pcts, savedAnalysis := false
        messages := ["CA-13 Demographic Analysis"] }
    | _, _, Except.error e =>
      { exn := some e, pcts := some pcts, savedAnalysis := false
        messages := ["CA-13 Demographic Analysis"] }

/-- What ends up on the terminal for a run of analyze_demographics from
__main__: the method's own prints, followed by the interpreter's
traceback message when an exception escaped uncaught. -/
def script_output (district_data : Option Frame) : List String :=
  let r := analyze_demographics district_data
  r.messages ++ (match r.exn with
                 | some e => [e]
                 | none => [])

end DemographicAnalyzer

namespace ElectionAnalyzer

/-- The national historical turnout rates hardcoded in
analyze_voter_potential, in iteration order of the dict. -/
def historical_turnout : List (String × ℚ) :=
  [("Hispanic", 54/100), ("Black", 63/100), ("Asian", 59/100), ("White", 71/100)]

/-- The CVAP share assigned to each group by the if/elif chain in
analyze_voter_potential (extracted by hand from the earlier analysis). -/
def group_share (g : String) : ℚ :=
  if g = "Hispanic" then 502/1000
  else if g = "Black" then 41/1000
  else if g = "Asian" then 62/1000
  else if g = "White" then 371/1000
  else 0

/-- The per-group record built inside the loop of
analyze_voter_potential. -/
structure GroupData where
  eligible : ℚ
  potential_turnout : ℚ
  turnout_rate : ℚ
deriving Repr, DecidableEq

/-- The total_cvap attribute set in CA13ElectionAnalyzer.__init__. -/
def total_cvap : ℚ := 393416

/-- The demographic_voters dict built by the loop of
analyze_voter_potential, parameterized by the total CVAP. -/
def demographic_voters (cvap : ℚ) : List (String × GroupData) :=
  historical_turnout.map (fun p =>
    let eligible := cvap * group_share p.1
    (p.1, { eligible := eligible
            potential_turnout := eligible * p.2
            turnout_rate := p.2 }))

/-- The total_potential_voters accumulator: the loop adds each group's
potential_turnout, so the final value is the sum over the groups. -/
def total_potential_voters (cvap : ℚ) : ℚ :=
  ((demographic_voters cvap).map (fun p => p.2.potential_turnout)).sum

/-- The '% of Total Expected Turnout' figure printed by
create_turnout_analysis for one group. -/
def pct_of_total (cvap : ℚ) (g : GroupData) : ℚ :=
  g.potential_turnout / total_potential_voters cvap * 100

end ElectionAnalyzer

namespace FinanceAnalyzer

/-- One record of a candidate's financial_data list; a missing key makes
the corresponding .get default to 0. -/
structure FinRecord where
  receipts : Option ℚ := none
  disbursements : Option ℚ := none
  cash_on_hand_end_period : Option ℚ := none
  individual_contributions : Option ℚ := none
  pac_contributions : Option ℚ := none
  operating_expenditures : Option ℚ := none
deriving Repr, DecidableEq

instance : Inhabited FinRecord := ⟨{}⟩

/-- The candidate_info sub-dict (only the party key is read). -/
structure CandidateInfo where
  party : Option String := none
deriving Repr, DecidableEq

/-- One entry of data['candidates']: candidate name plus the info dict
with its two optional sub-objects. -/
structure CandidateEntry where
  name : String
  candidate_info : Option CandidateInfo := none
  financial_data : Option (List FinRecord) := none
deriving Repr, DecidableEq

/-- The parsed ca13_comprehensive_data.json body: the candidates dict
(only part of the file the analyzer reads). -/
structure FinanceJson where
  candidates : List CandidateEntry
deriving Repr, DecidableEq

/-- Result of CA13FinanceAnalyzer.load_data: the Python return value
(None on the fall-through success path, False from the except branch),
the final self.data attribute, and the printed messages. -/
structure LoadOut where
  retval : Option Bool
  data_attr : Option FinanceJson
  messages : List String
deriving Repr

/-- Embedding of CA13FinanceAnalyzer.load_data: on success self.data is
assigned and the method falls off the end (returning None); a raised
exception is caught, printed, and the method returns False with
self.data never assigned. -/
def load_data (readResult : Except String FinanceJson) : LoadOut :=
  match readResult with
  | Except.ok j =>
    { retval := none, data_attr := some j
      messages := ["Successfully loaded campaign finance data"] }
  | Except.error e =>
    { retval := some false, data_attr := none
      messages := ["Error loading data: " ++ e] }

/-- Python truthiness of the values load_data can return: None and False
are both falsy. -/
def pyFalsy : Option Bool → Bool
  | none => true
  | some b => !b

/-- The self.data attribute after CA13FinanceAnalyzer.__init__, which
calls load_data and ignores its return value. -/
def finance_init_data (readResult : Except String FinanceJson) : Option FinanceJson :=
  (load_data readResult).data_attr

/-- One row of the summary frame built by prepare_financial_summary. -/
structure FinSummary where
  name : String
  party : String
  receipts : ℚ
  disbursements : ℚ
  cash_on_hand : ℚ
  individual_contributions : ℚ
  pac_contributions : ℚ
  operating_expenditures : ℚ
deriving Repr, DecidableEq

/-- Embedding of info.get('financial_data', [{}])[0]: the default is the
singleton empty dict, and indexing an explicitly empty list raises an
IndexError. -/
def financial0 (e : CandidateEntry) : Except String FinRecord :=
  match e.financial_data with
  | none => Except.ok {}
  | some [] => Except.error "IndexError: list index out of range"
  | some (x :: _) => Except.ok x

/-- The summary row built for one candidate entry, all financial fields
defaulting to 0 and the party to 'Unknown'. -/
def summary_row (e : CandidateEntry) (fd : FinRecord) : FinSummary :=
  { name := e.name
    party := ((e.candidate_info.getD {}).party).getD "Unknown"
    receipts := fd.receipts.getD 0
    disbursements := fd.disbursements.getD 0
    cash_on_hand := fd.cash_on_hand_end_period.getD 0
    individual_contributions := fd.individual_contributions.getD 0
    pac_contributions := fd.pac_contributions.getD 0
    operating_expenditures := fd.operating_expenditures.getD 0 }

/-- Embedding of prepare_financial_summary: one summary row per entry of
data['candidates']; an IndexError from the [0] access propagates. -/
def prepare_financial_summary (j : FinanceJson) : Except String (List FinSummary) :=
  j.candidates.mapM (fun e => (financial0 e).map (summary_row e))

/-- Arithmetic exceptions Python can raise from the / operator. -/
inductive PyArithError
  | zeroDivision
deriving Repr, DecidableEq

/-- Python division: raises ZeroDivisionError on a zero divisor. -/
def pyDiv (a b : ℚ) : Except PyArithError ℚ :=
  if b = 0 then Except.error PyArithError.zeroDivision
  else Except.ok (a / b)

/-- The burn-rate conditional expression of analyze_campaign_finances:
row['disbursements'] / row['receipts'] * 100 if row['receipts'] > 0
else 0, with the division modelled by pyDiv so that a reachable
division by zero would surface as an error. -/
def burn_rate (row : FinSummary) : Except PyArithError ℚ :=
  if row.receipts > 0 then
    (pyDiv row.disbursements row.receipts).map (fun q => q * 100)
  else
    Except.ok 0

end FinanceAnalyzer

namespace Models

/-- One row of the hand-typed historical table of
CongressionalElectionModel.prepare_historical_data. -/
structure HistRow where
  year : ℚ
  democratic_vote_share : ℚ
  turnout_rate : ℚ
  median_household_income : ℚ
  college_education_pct : ℚ
  unemployment_rate : ℚ
deriving Repr, DecidableEq

/-- Embedding of CongressionalElectionModel.prepare_historical_data. -/
def prepare_historical_data : List HistRow :=
  [{ year := 2012, democratic_vote_share := 57.8, turnout_rate := 35.2,
     median_household_income := 68244, college_education_pct := 29.8,
     unemployment_rate := 8.9 },
   { year := 2014, democratic_vote_share := 56.2, turnout_rate := 31.8,
     median_household_income := 69102, college_education_pct := 30.1,
     unemployment_rate := 8.1 },
   { year := 2016, democratic_vote_share := 58.1, turnout_rate := 38.4,
     median_household_income := 70156, college_education_pct := 30.5,
     unemployment_rate := 7.8 },
   { year := 2018, democratic_vote_share := 56.9, turnout_rate := 37.1,
     median_household_income := 71012, college_education_pct := 30.9,
     unemployment_rate := 7.5 },
   { year := 2020, democratic_vote_share := 59.7, turnout_rate := 36.8,
     median_household_income := 71948, college_education_pct := 31.2,
     unemployment_rate := 7.2 }]

/-- The feature matrix X of the __main__ block of data-collection-fec
(the four feature columns, in order). -/
def histX : List (List ℚ) :=
  prepare_historical_data.map (fun r =>
    [r.median_household_income, r.college_education_pct,
     r.unemployment_rate, r.turnout_rate])

/-- The target y of the __main__ block of data-collection-fec. -/
def histY : List ℚ :=
  prepare_historical_data.map (fun r => r.democratic_vote_share)

/-- Embedding of sklearn's LeaveOneOut().split over n samples: one fold
per sample index i, training on every other index and testing on i. -/
def looSplit (n : Nat) : List (List Nat × List Nat) :=
  (List.range n).map (fun i => ((List.range n).filter (fun j => j != i), [i]))

/-- Row selection by positional indices (the X_scaled[train_idx] /
y.iloc[train_idx] indexing). -/
def selectRows {α : Type} (xs : List α) (idxs : List Nat) : List α :=
  idxs.filterMap (fun j => xs.get? j)

/-- Output of one LOO evaluation run: the per-fold held-out predictions
of the two estimators and the held-out actual targets, in fold order. -/
structure LooOut where
  predictions1 : List ℚ
  predictions2 : List ℚ
  actuals : List ℚ
deriving Repr

/-- Embedding of CongressionalElectionModel.evaluate_with_loo. The
StandardScaler fit on all of X is modelled as an arbitrary row
transformation determined by the full matrix (scaler X), and each
estimator as a fit-and-predict function from a training set of
(features, target) pairs to a predictor; per fold each estimator is fit
on the other rows and its prediction on the held-out row collected. -/
def evaluate_with_loo
    (scaler : List (List ℚ) → List ℚ → List ℚ)
    (rf lr : List (List ℚ × ℚ) → List ℚ → ℚ)
    (X : List (List ℚ)) (y : List ℚ) : LooOut :=
  let X_scaled := X.map (scaler X)
  let folds := looSplit X.length
  { predictions1 := (folds.map (fun fold =>
      (selectRows X_scaled fold.2).map
        (rf ((selectRows X_scaled fold.1).zip (selectRows y fold.1))))).flatten
    predictions2 := (folds.map (fun fold =>
      (selectRows X_scaled fold.2).map
        (lr ((selectRows X_scaled fold.1).zip (selectRows y fold.1))))).flatten
    actuals := (folds.map (fun fold => selectRows y fold.2)).flatten }

/-- One row of the hand-typed table of
EnhancedElectionModel.prepare_enhanced_data, before the derived
columns. -/
structure EnhBaseRow where
  year : ℚ
  democratic_vote_share : ℚ
  turnout_rate : ℚ
  median_household_income : ℚ
  college_education_pct : ℚ
  unemployment_rate : ℚ
  dem_registration : ℚ
  rep_registration : ℚ
deriving Repr, DecidableEq

/-- The five hand-typed rows of prepare_enhanced_data. -/
def enhanced_base : List EnhBaseRow :=
  [{ year := 2012, democratic_vote_share := 57.8, turnout_rate := 35.2,
     median_household_income := 68244, college_education_pct := 29.8,
     unemployment_rate := 8.9, dem_registration := 45.2, rep_registration := 28.1 },
   { year := 2014, democratic_vote_share := 56.2, turnout_rate := 31.8,
     median_household_income := 69102, college_education_pct := 30.1,
     unemployment_rate := 8.1, dem_registration := 45.8, rep_registration := 27.8 },
   { year := 2016, democratic_vote_share := 58.1, turnout_rate := 38.4,
     median_household_income := 70156, college_education_pct := 30.5,
     unemployment_rate := 7.8, dem_registration := 46.3, rep_registration := 27.2 },
   { year := 2018, democratic_vote_share := 56.9, turnout_rate := 37.1,
     median_household_income := 71012, college_education_pct := 30.9,
     unemployment_rate := 7.5, dem_registration := 46.9, rep_registration := 26.8 },
   { year := 2020, democratic_vote_share := 59.7, turnout_rate := 36.8,
     median_household_income := 71948, college_education_pct := 31.2,
     unemployment_rate := 7.2, dem_registration := 47.2, rep_registration := 26.5 }]

/-- Embedding of pandas Series.shift(1): the first entry becomes NaN
(None) and every other entry the previous value. -/
def shift1 (xs : List ℚ) : List (Option ℚ) :=
  none :: xs.map some

/-- Embedding of pandas Series.diff(): the first entry becomes NaN
(None) and entry i the difference x[i] - x[i-1]. -/
def diff1 (xs : List ℚ) : List (Option ℚ) :=
  none :: (xs.tail.zip xs).map (fun p => some (p.1 - p.2))

/-- A row of the enhanced table with the derived feature columns; the
three shift/diff-derived columns are NaN (None) where undefined. -/
structure EnhRow extends EnhBaseRow where
  year_scaled : ℚ
  prev_margin : Option ℚ
  vote_share_trend : Option ℚ
  turnout_trend : Option ℚ
  edu_income_interaction : ℚ
deriving Repr, DecidableEq

/-- The enhanced table after the derived-column assignments, before
dropna. -/
def enhanced_with_features : List EnhRow :=
  let dvs := enhanced_base.map (fun r => r.democratic_vote_share)
  let tr := enhanced_base.map (fun r => r.turnout_rate)
  (enhanced_base.zip ((shift1 dvs).zip ((diff1 dvs).zip (diff1 tr)))).map
    (fun p =>
      { p.1 with
        year_scaled := (p.1.year - 2012) / 8
        prev_margin := p.2.1
        vote_share_trend := p.2.2.1
        turnout_trend := p.2.2.2
        edu_income_interaction :=
          p.1.college_education_pct * p.1.median_household_income / 100000 })

/-- Whether a row survives dropna: none of its NaN-able columns is
NaN. -/
def notNa (r : EnhRow) : Bool :=
  r.prev_margin.isSome && r.vote_share_trend.isSome && r.turnout_trend.isSome

/-- Embedding of EnhancedElectionModel.prepare_enhanced_data: the
hand-typed table with derived columns, rows containing NaN dropped. -/
def prepare_enhanced_data : List EnhRow :=
  enhanced_with_features.filter notNa

/-- The feature columns of EnhancedElectionModel.train_and_evaluate, in
order (the trend columns are non-NaN on every row that survived
dropna). -/
def enhanced_features (r : EnhRow) : List ℚ :=
  [r.year_scaled, r.turnout_rate, r.unemployment_rate,
   r.college_education_pct, r.dem_registration, r.rep_registration,
   r.vote_share_trend.getD 0, r.turnout_trend.getD 0,
   r.edu_income_interaction]

/-- Embedding of EnhancedElectionModel.train_and_evaluate: extract the
feature matrix and target from the prepared table and run the same
leave-one-out loop with the random-forest and ridge estimators. -/
def train_and_evaluate
    (scaler : List (List ℚ) → List ℚ → List ℚ)
    (rf ridge : List (List ℚ × ℚ) → List ℚ → ℚ)
    (data : List EnhRow) : LooOut :=
  let X := data.map enhanced_features
  let y := data.map (fun r => r.democratic_vote_share)
  let X_scaled := X.map (scaler X)
  let folds := looSplit X.length
  { predictions1 := (folds.map (fun fold =>
      (selectRows X_scaled fold.2).map
        (rf ((selectRows X_scaled fold.1).zip (selectRows y fold.1))))).flatten
    predictions2 := (folds.map (fun fold =>
      (selectRows X_scaled fold.2).map
        (ridge ((selectRows X_scaled fold.1).zip (selectRows y fold.1))))).flatten
    actuals := (folds.map (fun fold => selectRows y fold.2)).flatten }

end Models

section Theorems

open DistrictProcessor InitialSetup FecFetcher DataCollection DemographicAnalyzer
open ElectionAnalyzer FinanceAnalyzer Models

/-- Evaluation of the group_share if/elif chain at "Hispanic". -/
lemma group_share_hispanic : ElectionAnalyzer.group_share "Hispanic" = 502/1000 := by
  simp [ElectionAnalyzer.group_share]

/-- Evaluation of the group_share if/elif chain at "Black". -/
lemma group_share_black : ElectionAnalyzer.group_share "Black" = 41/1000 := by
  simp [ElectionAnalyzer.group_share]

/-- Evaluation of the group_share if/elif chain at "Asian". -/
lemma group_share_asian : ElectionAnalyzer.group_share "Asian" = 62/1000 := by
  simp [ElectionAnalyzer.group_share]

/-- Evaluation of the group_share if/elif chain at "White". -/
lemma group_share_white : ElectionAnalyzer.group_share "White" = 371/1000 := by
  simp [ElectionAnalyzer.group_share]

/-- Closed form of the total_potential_voters accumulator. -/
lemma total_potential_voters_eq (cvap : ℚ) :
    ElectionAnalyzer.total_potential_voters cvap = cvap * (5969/10000) := by
  simp only [ElectionAnalyzer.total_potential_voters, ElectionAnalyzer.demographic_voters,
    ElectionAnalyzer.historical_turnout, List.map_cons, List.map_nil, List.sum_cons,
    List.sum_nil, group_share_hispanic, group_share_black, group_share_asian,
    group_share_white]
  ring

/-- C8: in CA13ElectionAnalyzer.analyze_voter_potential,
total_potential_voters is exactly the sum over the four demographic
groups of their potential_turnout values, and consequently the four
'% of Total Expected Turnout' figures, each potential_turnout divided by
total_potential_voters times 100, sum to exactly 100 whenever
total_potential_voters is nonzero. -/
theorem c8_partition_pcts_sum_to_100 (cvap : ℚ)
    (h : ElectionAnalyzer.total_potential_voters cvap ≠ 0) :
    ElectionAnalyzer.total_potential_voters cvap =
      ((ElectionAnalyzer.demographic_voters cvap).map
        (fun p => p.2.potential_turnout)).sum ∧
    ((ElectionAnalyzer.demographic_voters cvap).map
      (fun p => ElectionAnalyzer.pct_of_total cvap p.2)).sum = 100 := by
  refine ⟨rfl, ?_⟩
  have hc : cvap ≠ 0 := by
    intro h0
    exact h (by rw [total_potential_voters_eq, h0, zero_mul])
  simp only [ElectionAnalyzer.demographic_voters, ElectionAnalyzer.pct_of_total,
    ElectionAnalyzer.historical_turnout, List.map_cons, List.map_nil, List.sum_cons,
    List.sum_nil, group_share_hispanic, group_share_black, group_share_asian,
    group_share_white, total_potential_voters_eq]
  field_simp
  ring

/-- Witness for C8 at the script's actual total_cvap value 393416. -/
theorem c8_witness :
    ElectionAnalyzer.total_potential_voters ElectionAnalyzer.total_cvap ≠ 0 ∧
    ((ElectionAnalyzer.demographic_voters ElectionAnalyzer.total_cvap).map
      (fun p => ElectionAnalyzer.pct_of_total ElectionAnalyzer.total_cvap p.2)).sum = 100 := by
  have h : ElectionAnalyzer.total_potential_voters ElectionAnalyzer.total_cvap ≠ 0 := by
    rw [total_potential_voters_eq]
    norm_num [ElectionAnalyzer.total_cvap]
  exact ⟨h, (c8_partition_pcts_sum_to_100 ElectionAnalyzer.total_cvap h).2⟩

/-- C2 counterexample: the table prepare_enhanced_data hands to
train_and_evaluate has 4 rows, not the 5 the claim states (dropna
removes the 2012 row, whose shift- and diff-derived columns are NaN). -/
theorem c2_counterexample :
    Models.prepare_enhanced_data.length = 4 ∧
    ¬ Models.prepare_enhanced_data.length = 5 := by
  have h4 : Models.prepare_enhanced_data.length = 4 := rfl
  refine ⟨h4, ?_⟩
  intro h
  rw [h4] at h
  exact absurd h (by norm_num)

/-- C2 (amended): evaluate_with_loo is handed the 5-row historical table
and produces 5 leave-one-out folds, each testing a single row, and one
held-out prediction per row with the held-out actuals being exactly the
target column; train_and_evaluate is handed the 4-row enhanced table
(dropna removed the 2012 row) and likewise produces 4 folds and one
held-out prediction per row. -/
theorem c2_loo_fold_counts :
    Models.prepare_historical_data.length = 5 ∧
    (Models.looSplit Models.histX.length).length = 5 ∧
    ((Models.looSplit Models.histX.length).all
      (fun fold => fold.2.length == 1)) = true ∧
    (∀ sc rf lr,
      (Models.evaluate_with_loo sc rf lr Models.histX Models.histY).predictions1.length = 5 ∧
      (Models.evaluate_with_loo sc rf lr Models.histX Models.histY).predictions2.length = 5 ∧
      (Models.evaluate_with_loo sc rf lr Models.histX Models.histY).actuals = Models.histY) ∧
    Models.prepare_enhanced_data.length = 4 ∧
    (Models.looSplit Models.prepare_enhanced_data.length).length = 4 ∧
    ((Models.looSplit Models.prepare_enhanced_data.length).all
      (fun fold => fold.2.length == 1)) = true ∧
    (∀ sc rf rg,
      (Models.train_and_evaluate sc rf rg Models.prepare_enhanced_data).predictions1.length = 4 ∧
      (Models.train_and_evaluate sc rf rg Models.prepare_enhanced_data).predictions2.length = 4 ∧
      (Models.train_and_evaluate sc rf rg Models.prepare_enhanced_data).actuals =
        Models.prepare_enhanced_data.map (fun r => r.democratic_vote_share)) :=
  ⟨rfl, rfl, rfl, fun _ _ _ => ⟨rfl, rfl, rfl⟩, rfl, rfl, rfl, fun _ _ _ => ⟨rfl, rfl, rfl⟩⟩

/-- Witness for C2 at concrete estimator and scaler functions. -/
theorem c2_witness :
    (Models.evaluate_with_loo (fun _ r => r) (fun _ _ => 0) (fun _ _ => 0)
      Models.histX Models.histY).predictions1.length = 5 ∧
    (Models.train_and_evaluate (fun _ r => r) (fun _ _ => 0) (fun _ _ => 0)
      Models.prepare_enhanced_data).predictions1.length = 4 :=
  ⟨(c2_loo_fold_counts.2.2.2.1 (fun _ r => r) (fun _ _ => 0) (fun _ _ => 0)).1,
   (c2_loo_fold_counts.2.2.2.2.2.2.2 (fun _ r => r) (fun _ _ => 0) (fun _ _ => 0)).1⟩

/-- C9: CA13FinanceAnalyzer.load_data returns False exactly when the
read raises (with self.data left unassigned) and returns None on
success; it never returns True, its return value is falsy either way,
and after a failed load in the constructor the data attribute is never
assigned. -/
theorem c9_finance_load_data_falsy :
    (∀ e, FinanceAnalyzer.load_data (Except.error e) =
      { retval := some false, data_attr := none
        messages := ["Error loading data: " ++ e] }) ∧
    (∀ j, (FinanceAnalyzer.load_data (Except.ok j)).retval = none ∧
      (FinanceAnalyzer.load_data (Except.ok j)).data_attr = some j) ∧
    (∀ r, (FinanceAnalyzer.load_data r).retval ≠ some true) ∧
    (∀ r, FinanceAnalyzer.pyFalsy (FinanceAnalyzer.load_data r).retval = true) ∧
    (∀ e, FinanceAnalyzer.finance_init_data (Except.error e) = none) := by
  refine ⟨fun e => rfl, fun j => ⟨rfl, rfl⟩, fun r => ?_, fun r => ?_, fun e => rfl⟩
  · cases r <;> simp [FinanceAnalyzer.load_data]
  · cases r <;> rfl

/-- C10: the burn-rate conditional expression divides only when
receipts > 0 and evaluates to 0 otherwise, so the ZeroDivisionError
branch of the division is unreachable for every summary row, including
rows whose financial fields defaulted to 0. -/
theorem c10_burn_rate_no_div_by_zero :
    (∀ row : FinanceAnalyzer.FinSummary,
      FinanceAnalyzer.burn_rate row =
        Except.ok (if row.receipts > 0
                   then row.disbursements / row.receipts * 100 else 0)) ∧
    (∀ row : FinanceAnalyzer.FinSummary,
      FinanceAnalyzer.burn_rate row ≠
        Except.error FinanceAnalyzer.PyArithError.zeroDivision) ∧
    (∀ j rows, FinanceAnalyzer.prepare_financial_summary j = Except.ok rows →
      ∀ row ∈ rows, ∃ v, FinanceAnalyzer.burn_rate row = Except.ok v) := by
  have key : ∀ row : FinanceAnalyzer.FinSummary,
      FinanceAnalyzer.burn_rate row =
        Except.ok (if row.receipts > 0
                   then row.disbursements / row.receipts * 100 else 0) := by
    intro row
    by_cases h : row.receipts > 0
    · simp [FinanceAnalyzer.burn_rate, FinanceAnalyzer.pyDiv, h, ne_of_gt h, Except.map]
    · simp [FinanceAnalyzer.burn_rate, h]
  refine ⟨key, fun row => ?_, fun j rows _ row _ => ⟨_, key row⟩⟩
  rw [key row]
  simp

/-- Witness for C10 at a one-candidate file whose financial fields are
all absent, so every field of the summary row defaults to 0. -/
theorem c10_witness :
    FinanceAnalyzer.prepare_financial_summary { candidates := [{ name := "A" }] } =
      Except.ok [FinanceAnalyzer.summary_row { name := "A" } {}] ∧
    ∃ v, FinanceAnalyzer.burn_rate (FinanceAnalyzer.summary_row { name := "A" } {}) =
      Except.ok v :=
  ⟨rfl,
   c10_burn_rate_no_div_by_zero.2.2 { candidates := [{ name := "A" }] }
     [FinanceAnalyzer.summary_row { name := "A" } {}] rfl
     (FinanceAnalyzer.summary_row { name := "A" } {}) (by simp)⟩

end Theorems

section MoreTheorems

open DistrictProcessor InitialSetup FecFetcher DataCollection DemographicAnalyzer
open ElectionAnalyzer FinanceAnalyzer Models

/-- The promptedInput flag of the post-column-choice continuation is
exactly the flag it was entered with. -/
lemma process_with_col_prompted (w : DistrictProcessor.DPWorld)
    (t : DistrictProcessor.GeoTable) (col : String) (b : Bool) :
    (DistrictProcessor.process_with_col w t col b).promptedInput = b := by
  unfold DistrictProcessor.process_with_col
  by_cases h : (DistrictProcessor.extract13 t col).rows.length = 0
  · simp [h]
  · cases hw : w.writeResult <;> simp [h, hw]

/-- Every branch of fetch_ca13_candidates issues exactly the one
candidates/search GET request. -/
lemma fetch_ca13_requests (key : String) (w : FecFetcher.FetchWorld) :
    (FecFetcher.fetch_ca13_candidates key w).requests_issued =
      [FecFetcher.candidates_request key] := by
  unfold FecFetcher.fetch_ca13_candidates
  cases hr : w.requestResult with
  | error e => simp
  | ok resp =>
    by_cases hs : resp.status = 200
    · cases hj : resp.jsonResult with
      | error e => simp [hs, hj]
      | ok data =>
        cases hsv : w.saveResult with
        | error e => simp [hs, hj, hsv]
        | ok u => cases hres : data.results <;> simp [hs, hj, hsv, hres]
    · simp [hs]

/-- Every branch of fetch_candidate_financials issues exactly the one
candidate-totals GET request. -/
lemma fetch_financials_requests (key cid : String)
    (r : Except String FecFetcher.TotalsResponse) :
    (FecFetcher.fetch_candidate_financials key cid r).requests_issued =
      [FecFetcher.financials_request key cid] := by
  unfold FecFetcher.fetch_candidate_financials
  cases r with
  | error e => simp
  | ok resp =>
    by_cases hs : resp.status = 200
    · cases hj : resp.jsonResult with
      | error e => simp [hs, hj]
      | ok data => cases hres : data.results <;> simp [hs, hj, hres]
    · simp [hs]

/-- C1: each loading operation wraps its underlying read or request in a
broad catch: a raised exception is caught, an error message is printed,
and the sentinel False (process_district_data, load_census_data) or
None (fetch_ca13_candidates) is returned; on success process_district_data
and load_census_data return True and fetch_ca13_candidates returns the
fetched results list. -/
theorem c1_loaders_catch_and_return_sentinels :
    (∀ (w : DistrictProcessor.DPWorld) (e : String),
      w.shapefileExists = true → w.readResult = Except.error e →
      (DistrictProcessor.process_district_data w).retval = false ∧
      ("Error processing district data: " ++ e) ∈
        (DistrictProcessor.process_district_data w).messages) ∧
    (∀ (w : DistrictProcessor.DPWorld) (t : DistrictProcessor.GeoTable) (col : String),
      w.shapefileExists = true → w.readResult = Except.ok t →
      DistrictProcessor.find_district_col t = some col →
      ¬ (DistrictProcessor.extract13 t col).rows.length = 0 →
      w.writeResult = Except.ok () →
      (DistrictProcessor.process_district_data w).retval = true) ∧
    (∀ e, (InitialSetup.load_census_data (Except.error e)).retval = false ∧
      ("Error loading census data: " ++ e) ∈
        (InitialSetup.load_census_data (Except.error e)).messages) ∧
    (∀ t, (InitialSetup.load_census_data (Except.ok t)).retval = true) ∧
    (∀ (key : String) (w : FecFetcher.FetchWorld) (e : String),
      w.requestResult = Except.error e →
      (FecFetcher.fetch_ca13_candidates key w).retval = none ∧
      ("Error: " ++ e) ∈ (FecFetcher.fetch_ca13_candidates key w).messages) ∧
    (∀ (key : String) (w : FecFetcher.FetchWorld) (resp : FecFetcher.FECResponse)
        (results : List FecFetcher.Candidate),
      w.requestResult = Except.ok resp → resp.status = 200 →
      resp.jsonResult = Except.ok { results := some results } →
      w.saveResult = Except.ok () →
      (FecFetcher.fetch_ca13_candidates key w).retval = some results) := by
  refine ⟨?_, ?_, ?_, ?_, ?_, ?_⟩
  · intro w e hex hr
    unfold DistrictProcessor.process_district_data
    rw [hex, hr]
    simp
  · intro w t col hex hr hf hne hw
    unfold DistrictProcessor.process_district_data
    rw [hex, hr]
    simp [hf, DistrictProcessor.process_with_col, hne, hw]
  · intro e
    exact ⟨rfl, by simp [InitialSetup.load_census_data]⟩
  · intro t
    rfl
  · intro key w e hr
    unfold FecFetcher.fetch_ca13_candidates
    rw [hr]
    simp
  · intro key w resp results hr hs hj hsv
    unfold FecFetcher.fetch_ca13_candidates
    rw [hr]
    simp [hs, hj, hsv]

/-- Witness for C1 at concrete worlds for each branch. -/
theorem c1_witness :
    (DistrictProcessor.process_district_data
      { shapefileExists := true, readResult := Except.error "boom",
        inputResult := Except.ok 0, writeResult := Except.ok () }).retval = false ∧
    (InitialSetup.load_census_data (Except.error "boom")).retval = false ∧
    (InitialSetup.load_census_data (Except.ok { rows := [] })).retval = true ∧
    (FecFetcher.fetch_ca13_candidates "k"
      { requestResult := Except.error "down", saveResult := Except.ok () }).retval = none ∧
    (FecFetcher.fetch_ca13_candidates "k"
      { requestResult := Except.ok
          { status := 200, text := "", jsonResult := Except.ok { results := some [] } },
        saveResult := Except.ok () }).retval = some [] :=
  ⟨(c1_loaders_catch_and_return_sentinels.1 _ "boom" rfl rfl).1,
   (c1_loaders_catch_and_return_sentinels.2.2.1 "boom").1,
   c1_loaders_catch_and_return_sentinels.2.2.2.1 { rows := [] },
   (c1_loaders_catch_and_return_sentinels.2.2.2.2.1 "k" _ "down" rfl).1,
   c1_loaders_catch_and_return_sentinels.2.2.2.2.2 "k" _
     { status := 200, text := "", jsonResult := Except.ok { results := some [] } }
     [] rfl rfl rfl rfl⟩

/-- C4: a missing input file aborts the load without touching the
loaded-data state: process_district_data prints the not-found message
and returns False with district_data and ca13_data still None and no
output file written, and a failed demographic-analyzer load_data prints
a message and returns False with district_data still None. -/
theorem c4_missing_file_aborts_without_side_effects :
    (∀ w : DistrictProcessor.DPWorld, w.shapefileExists = false →
      (DistrictProcessor.process_district_data w).retval = false ∧
      (DistrictProcessor.process_district_data w).district_data = none ∧
      (DistrictProcessor.process_district_data w).ca13_data = none ∧
      (DistrictProcessor.process_district_data w).wroteOutput = false ∧
      ("Error: Shapefile not found at data/ca_cong_adopted_2021/CD_Final 2021-12-20.shp")
        ∈ (DistrictProcessor.process_district_data w).messages) ∧
    (∀ e, DemographicAnalyzer.load_data (Except.error e) =
      { retval := false, district_data := none
        messages := ["Error loading data: " ++ e] }) := by
  refine ⟨?_, fun e => rfl⟩
  intro w h
  unfold DistrictProcessor.process_district_data
  rw [h]
  simp

/-- Witness for C4 at a concrete world with a missing shapefile. -/
theorem c4_witness :
    (DistrictProcessor.process_district_data
      { shapefileExists := false, readResult := Except.error "unused",
        inputResult := Except.ok 0, writeResult := Except.ok () }).retval = false ∧
    (DistrictProcessor.process_district_data
      { shapefileExists := false, readResult := Except.error "unused",
        inputResult := Except.ok 0, writeResult := Except.ok () }).district_data = none :=
  ⟨(c4_missing_file_aborts_without_side_effects.1 _ rfl).1,
   (c4_missing_file_aborts_without_side_effects.1 _ rfl).2.1⟩

/-- C6: each fetch call issues exactly one HTTP GET (hence no retry or
backoff), every issued request carries the api_key parameter supplied at
construction, a non-200 response or a raised exception yields None, and
the key the entry point constructs the fetcher with is the API_KEY
literal embedded in the source. -/
theorem c6_single_request_with_api_key :
    (∀ (key : String) (w : FecFetcher.FetchWorld),
      (FecFetcher.fetch_ca13_candidates key w).requests_issued.length = 1 ∧
      ∀ req ∈ (FecFetcher.fetch_ca13_candidates key w).requests_issued,
        ("api_key", key) ∈ req.params) ∧
    (∀ (key cid : String) (r : Except String FecFetcher.TotalsResponse),
      (FecFetcher.fetch_candidate_financials key cid r).requests_issued.length = 1 ∧
      ∀ req ∈ (FecFetcher.fetch_candidate_financials key cid r).requests_issued,
        ("api_key", key) ∈ req.params) ∧
    (∀ (key : String) (w : FecFetcher.FetchWorld) (e : String),
      w.requestResult = Except.error e →
      (FecFetcher.fetch_ca13_candidates key w).retval = none) ∧
    (∀ (key : String) (w : FecFetcher.FetchWorld) (resp : FecFetcher.FECResponse),
      w.requestResult = Except.ok resp → ¬ resp.status = 200 →
      (FecFetcher.fetch_ca13_candidates key w).retval = none) ∧
    (∀ (key cid e : String),
      (FecFetcher.fetch_candidate_financials key cid (Except.error e)).retval = none) ∧
    (∀ (key cid : String) (resp : FecFetcher.TotalsResponse), ¬ resp.status = 200 →
      (FecFetcher.fetch_candidate_financials key cid (Except.ok resp)).retval = none) ∧
    FecFetcher.entry_point_fetcher_key = FecFetcher.API_KEY := by
  refine ⟨?_, ?_, ?_, ?_, ?_, ?_, rfl⟩
  · intro key w
    rw [fetch_ca13_requests]
    refine ⟨rfl, ?_⟩
    intro req hreq
    rw [List.mem_singleton] at hreq
    subst hreq
    simp [FecFetcher.candidates_request]
  · intro key cid r
    rw [fetch_financials_requests]
    refine ⟨rfl, ?_⟩
    intro req hreq
    rw [List.mem_singleton] at hreq
    subst hreq
    simp [FecFetcher.financials_request]
  · intro key w e hr
    unfold FecFetcher.fetch_ca13_candidates
    rw [hr]
  · intro key w resp hr hs
    unfold FecFetcher.fetch_ca13_candidates
    rw [hr]
    simp [hs]
  · intro key cid e
    rfl
  · intro key cid resp hs
    unfold FecFetcher.fetch_candidate_financials
    simp [hs]

/-- Witness for C6 at a concrete key and non-200 world. -/
theorem c6_witness :
    (FecFetcher.fetch_ca13_candidates FecFetcher.API_KEY
      { requestResult := Except.ok
          { status := 404, text := "not found", jsonResult := Except.error "no json" },
        saveResult := Except.ok () }).requests_issued.length = 1 ∧
    (FecFetcher.fetch_ca13_candidates FecFetcher.API_KEY
      { requestResult := Except.ok
          { status := 404, text := "not found", jsonResult := Except.error "no json" },
        saveResult := Except.ok () }).retval = none :=
  ⟨(c6_single_request_with_api_key.1 FecFetcher.API_KEY _).1,
   c6_single_request_with_api_key.2.2.2.1 FecFetcher.API_KEY _
     { status := 404, text := "not found", jsonResult := Except.error "no json" }
     rfl (by norm_num)⟩

/-- C7: with the shapefile read succeeding, process_district_data blocks
on an input() prompt exactly when none of the candidate district columns
is present in the loaded table; when one is present the run never
requests interactive input. -/
theorem c7_input_prompt_iff_no_district_col (w : DistrictProcessor.DPWorld)
    (t : DistrictProcessor.GeoTable)
    (hex : w.shapefileExists = true) (hr : w.readResult = Except.ok t) :
    ((DistrictProcessor.process_district_data w).promptedInput = true ↔
      DistrictProcessor.find_district_col t = none) ∧
    (DistrictProcessor.find_district_col t = none ↔
      ∀ c ∈ DistrictProcessor.district_cols, ¬ t.cols.contains c = true) := by
  constructor
  · unfold DistrictProcessor.process_district_data
    rw [hex, hr]
    cases hf : DistrictProcessor.find_district_col t with
    | some col => simp [hf, process_with_col_prompted]
    | none =>
      cases hi : w.inputResult with
      | error e => simp [hf, hi]
      | ok idx =>
        by_cases hlt : idx < t.cols.length
        · simp [hf, hi, hlt, process_with_col_prompted]
        · simp [hf, hi, hlt]
  · unfold DistrictProcessor.find_district_col
    rw [List.find?_eq_none]

/-- Witness for C7 at a table that has a CD column (no prompt) applied
through the theorem. -/
theorem c7_witness :
    ((DistrictProcessor.process_district_data
      { shapefileExists := true
        readResult := Except.ok { cols := ["CD"], rows := [[("CD", "13")]] }
        inputResult := Except.ok 0, writeResult := Except.ok () }).promptedInput = true ↔
      DistrictProcessor.find_district_col
        { cols := ["CD"], rows := [[("CD", "13")]] } = none) ∧
    DistrictProcessor.find_district_col
      { cols := ["CD"], rows := [[("CD", "13")]] } = some "CD" :=
  ⟨(c7_input_prompt_iff_no_district_col _ _ rfl rfl).1, by rfl⟩

end MoreTheorems

section LastTheorems

open DistrictProcessor InitialSetup FecFetcher DataCollection DemographicAnalyzer
open ElectionAnalyzer FinanceAnalyzer Models

/-- Column access on a frame lacking the column raises the KeyError
naming that column. -/
lemma getCol_error_of_missing (f : DemographicAnalyzer.Frame) (c : String)
    (h : DemographicAnalyzer.hasCol f c = false) :
    DemographicAnalyzer.getCol f c = Except.error ("KeyError: " ++ c) := by
  unfold DemographicAnalyzer.getCol
  cases hf : f.cols.find? (fun p => p.1 = c) with
  | none => rfl
  | some p =>
    exfalso
    have hmem := List.mem_of_find?_eq_some hf
    have hp := List.find?_some hf
    have : DemographicAnalyzer.hasCol f c = true := by
      unfold DemographicAnalyzer.hasCol
      exact List.any_eq_true.mpr ⟨p, hmem, hp⟩
    rw [h] at this
    exact Bool.false_ne_true this

/-- Column access on a frame having the column returns a value. -/
lemma getCol_ok_of_present (f : DemographicAnalyzer.Frame) (c : String)
    (h : DemographicAnalyzer.hasCol f c = true) :
    ∃ v, DemographicAnalyzer.getCol f c = Except.ok v := by
  unfold DemographicAnalyzer.hasCol at h
  obtain ⟨p, hmem, hp⟩ := List.any_eq_true.mp h
  unfold DemographicAnalyzer.getCol
  cases hf : f.cols.find? (fun q => q.1 = c) with
  | some q => exact ⟨q.2, rfl⟩
  | none =>
    exfalso
    rw [List.find?_eq_none] at hf
    exact hf p hmem hp

/-- C5: running analyze_demographics on loaded data lacking one of the
six required columns (c being the first such, in the dict's access
order) aborts with an uncaught KeyError naming the column: no
percentages are computed, the report is not saved, and the error message
is printed (by the interpreter as the uncaught exception's traceback). -/
theorem c5_missing_column_aborts (f : DemographicAnalyzer.Frame) (c : String)
    (hc : DemographicAnalyzer.requiredCols.find?
            (fun x => !(DemographicAnalyzer.hasCol f x)) = some c) :
    DemographicAnalyzer.hasCol f c = false ∧
    c ∈ DemographicAnalyzer.requiredCols ∧
    (DemographicAnalyzer.analyze_demographics (some f)).exn = some ("KeyError: " ++ c) ∧
    (DemographicAnalyzer.analyze_demographics (some f)).pcts = none ∧
    (DemographicAnalyzer.analyze_demographics (some f)).savedAnalysis = false ∧
    ("KeyError: " ++ c) ∈ DemographicAnalyzer.script_output (some f) := by
  have hmiss : DemographicAnalyzer.hasCol f c = false := by
    have := List.find?_some hc
    simpa using this
  have hmem : c ∈ DemographicAnalyzer.requiredCols := List.mem_of_find?_eq_some hc
  refine ⟨hmiss, hmem, ?_⟩
  cases h1 : DemographicAnalyzer.hasCol f "POPULATION" with
  | false =>
    have hcc : c = "POPULATION" := by
      simp [DemographicAnalyzer.requiredCols, List.find?, h1] at hc
      exact hc.symm
    subst hcc
    have e1 := getCol_error_of_missing f "POPULATION" h1
    simp [DemographicAnalyzer.analyze_demographics, e1, DemographicAnalyzer.script_output]
  | true =>
    obtain ⟨v1, hv1⟩ := getCol_ok_of_present f "POPULATION" h1
    cases h2 : DemographicAnalyzer.hasCol f "CVAP_19" with
    | false =>
      have hcc : c = "CVAP_19" := by
        simp [DemographicAnalyzer.requiredCols, List.find?, h1, h2] at hc
        exact hc.symm
      subst hcc
      have e2 := getCol_error_of_missing f "CVAP_19" h2
      simp [DemographicAnalyzer.analyze_demographics, hv1, e2,
        DemographicAnalyzer.script_output]
    | true =>
      obtain ⟨v2, hv2⟩ := getCol_ok_of_present f "CVAP_19" h2
      cases h3 : DemographicAnalyzer.hasCol f "HSP_CVAP_1" with
      | false =>
        have hcc : c = "HSP_CVAP_1" := by
          simp [DemographicAnalyzer.requiredCols, List.find?, h1, h2, h3] at hc
          exact hc.symm
        subst hcc
        have e3 := getCol_error_of_missing f "HSP_CVAP_1" h3
        simp [DemographicAnalyzer.analyze_demographics, hv1, hv2, e3,
          DemographicAnalyzer.script_output]
      | true =>
        obtain ⟨v3, hv3⟩ := getCol_ok_of_present f "HSP_CVAP_1" h3
        cases h4 : DemographicAnalyzer.hasCol f "DOJ_NH_BLK" with
        | false =>
          have hcc : c = "DOJ_NH_BLK" := by
            simp [DemographicAnalyzer.requiredCols, List.find?, h1, h2, h3, h4] at hc
            exact hc.symm
          subst hcc
          have e4 := getCol_error_of_missing f "DOJ_NH_BLK" h4
          simp [DemographicAnalyzer.analyze_demographics, hv1, hv2, hv3, e4,
            DemographicAnalyzer.script_output]
        | true =>
          obtain ⟨v4, hv4⟩ := getCol_ok_of_present f "DOJ_NH_BLK" h4
          cases h5 : DemographicAnalyzer.hasCol f "DOJ_NH_ASN" with
          | false =>
            have hcc : c = "DOJ_NH_ASN" := by
              simp [DemographicAnalyzer.requiredCols, List.find?, h1, h2, h3, h4, h5] at hc
              exact hc.symm
            subst hcc
            have e5 := getCol_error_of_missing f "DOJ_NH_ASN" h5
            simp [DemographicAnalyzer.analyze_demographics, hv1, hv2, hv3, hv4, e5,
              DemographicAnalyzer.script_output]
          | true =>
            obtain ⟨v5, hv5⟩ := getCol_ok_of_present f "DOJ_NH_ASN" h5
            cases h6 : DemographicAnalyzer.hasCol f "NH_WHT_CVA" with
            | false =>
              have hcc : c = "NH_WHT_CVA" := by
                simp [DemographicAnalyzer.requiredCols, List.find?, h1, h2, h3, h4, h5, h6] at hc
                exact hc.symm
              subst hcc
              have e6 := getCol_error_of_missing f "NH_WHT_CVA" h6
              simp [DemographicAnalyzer.analyze_demographics, hv1, hv2, hv3, hv4, hv5, e6,
                DemographicAnalyzer.script_output]
            | true =>
              exfalso
              simp [DemographicAnalyzer.requiredCols, List.find?, h1, h2, h3, h4, h5, h6] at hc

/-- Witness for C5 at a frame that has POPULATION but lacks CVAP_19. -/
theorem c5_witness :
    DemographicAnalyzer.requiredCols.find?
      (fun x => !(DemographicAnalyzer.hasCol { cols := [("POPULATION", 5)] } x)) =
        some "CVAP_19" ∧
    (DemographicAnalyzer.analyze_demographics
      (some { cols := [("POPULATION", 5)] })).exn = some ("KeyError: " ++ "CVAP_19") ∧
    (DemographicAnalyzer.analyze_demographics
      (some { cols := [("POPULATION", 5)] })).savedAnalysis = false :=
  ⟨rfl,
   (c5_missing_column_aborts { cols := [("POPULATION", 5)] } "CVAP_19" rfl).2.2.1,
   (c5_missing_column_aborts { cols := [("POPULATION", 5)] } "CVAP_19" rfl).2.2.2.2.1⟩

/-- C3: every row of the CA-13 table produced by get_election_data has
democratic_vote_share = democratic_votes / total_votes * 100 and
republican_vote_share = republican_votes / total_votes * 100, and
analyze_demographics computes each group percentage as the group's CVAP
count divided by the total CVAP times 100 for the fixed four
categories. -/
theorem c3_vote_share_and_demographic_pcts :
    (∀ rows, DataCollection.get_election_data (Except.ok rows) =
      some (DataCollection.process_election_rows rows)) ∧
    (∀ rows r, r ∈ DataCollection.process_election_rows rows →
      r.democratic_vote_share = r.democratic_votes / r.total_votes * 100 ∧
      r.republican_vote_share = r.republican_votes / r.total_votes * 100) ∧
    (∀ (f : DemographicAnalyzer.Frame) (pop cvap hsp blk asn wht : ℚ),
      DemographicAnalyzer.getCol f "POPULATION" = Except.ok pop →
      DemographicAnalyzer.getCol f "CVAP_19" = Except.ok cvap →
      DemographicAnalyzer.getCol f "HSP_CVAP_1" = Except.ok hsp →
      DemographicAnalyzer.getCol f "DOJ_NH_BLK" = Except.ok blk →
      DemographicAnalyzer.getCol f "DOJ_NH_ASN" = Except.ok asn →
      DemographicAnalyzer.getCol f "NH_WHT_CVA" = Except.ok wht →
      (DemographicAnalyzer.analyze_demographics (some f)).pcts =
        some [("Hispanic", hsp / cvap * 100), ("Black", blk / cvap * 100),
              ("Asian", asn / cvap * 100), ("White", wht / cvap * 100)]) := by
  refine ⟨fun rows => rfl, ?_, ?_⟩
  · intro rows r hr
    simp [DataCollection.process_election_rows] at hr
    obtain ⟨s, hs, rfl⟩ := hr
    constructor <;> rfl
  · intro f pop cvap hsp blk asn wht h1 h2 h3 h4 h5 h6
    cases hI : DemographicAnalyzer.getCol f "IDEAL_VALU" <;>
    cases hD : DemographicAnalyzer.getCol f "DEVIATION" <;>
    cases hF : DemographicAnalyzer.getCol f "F_DEVIATIO" <;>
      simp [DemographicAnalyzer.analyze_demographics, h1, h2, h3, h4, h5, h6,
        hI, hD, hF, DemographicAnalyzer.demographic_pcts]

/-- Witness for C3 at a concrete precinct row and a concrete frame. -/
theorem c3_witness :
    DataCollection.addShares
      { state := "CALIFORNIA", district := 13, precinct := "P1",
        democratic_votes := 60, republican_votes := 40, total_votes := 100 } ∈
      DataCollection.process_election_rows
        [{ state := "CALIFORNIA", district := 13, precinct := "P1",
           democratic_votes := 60, republican_votes := 40, total_votes := 100 }] ∧
    (DataCollection.addShares
      { state := "CALIFORNIA", district := 13, precinct := "P1",
        democratic_votes := 60, republican_votes := 40, total_votes := 100
        : DataCollection.ElectionRow }).democratic_vote_share = 60 / 100 * 100 ∧
    (DemographicAnalyzer.analyze_demographics
      (some { cols := [("POPULATION", 700000), ("CVAP_19", 400000),
                       ("HSP_CVAP_1", 200000), ("DOJ_NH_BLK", 20000),
                       ("DOJ_NH_ASN", 25000), ("NH_WHT_CVA", 150000)] })).pcts =
      some [("Hispanic", 200000 / 400000 * 100), ("Black", 20000 / 400000 * 100),
            ("Asian", 25000 / 400000 * 100), ("White", 150000 / 400000 * 100)] := by
  have hm : DataCollection.addShares
      { state := "CALIFORNIA", district := 13, precinct := "P1",
        democratic_votes := 60, republican_votes := 40, total_votes := 100 } ∈
      DataCollection.process_election_rows
        [{ state := "CALIFORNIA", district := 13, precinct := "P1",
           democratic_votes := 60, republican_votes := 40, total_votes := 100 }] := by
    simp [DataCollection.process_election_rows, DataCollection.isCA13]
  refine ⟨hm, (c3_vote_share_and_demographic_pcts.2.1 _ _ hm).1, ?_⟩
  exact c3_vote_share_and_demographic_pcts.2.2 _ 700000 400000 200000 20000 25000 150000
    rfl rfl rfl rfl rfl rfl

end LastTheorems
